import Mathlib

/-!
Verification of the reconnecting WebSocket data client of the trading-trends
repository (src/hooks/useWebSocket.ts) and its Display consumer
(src/frontend/src/pages/Display.tsx).

The hook is embedded as an explicit state machine: each transport callback of
the source (onopen, onmessage, onerror, onclose), the reconnect-timer callback,
`sendMessage`, and the effect cleanup become pure state-transition functions
translated line by line from the source.  A guarded step relation captures the
event orderings the platform guarantees (open fires only on a connecting
socket, close is terminal for a socket, a timer fires only if one is pending),
and `Reachable` is its reflexive-transitive closure from the initial state.
-/

namespace TradingTrends

/-- JSON values, as produced by JSON.parse / consumed by JSON.stringify.
The source treats payloads as uninterpreted parsed JSON. -/
inductive Json : Type where
  | str : String → Json
  | num : Int → Json
  | bool : Bool → Json
  | null : Json
  | arr : List Json → Json
  | obj : List (String × Json) → Json

/-- WebSocketConfig from useWebSocket.ts lines 4-15, with the defaults
destructured at lines 34-41: reconnect = true, reconnectAttempts = 5,
reconnectInterval = 5000. -/
structure WebSocketConfig : Type where
  apiKey : Option String := none
  subscribeMessage : Option Json := none
  protocols : List String := []
  reconnect : Bool := true
  reconnectAttempts : Nat := 5
  reconnectInterval : Nat := 5000

/-- The readyState values of the platform WebSocket. -/
inductive ReadyState : Type where
  | CONNECTING : ReadyState
  | OPEN : ReadyState
  | CLOSING : ReadyState
  | CLOSED : ReadyState
deriving DecidableEq

/-- The transport socket handle, modelled by the one field the hook reads. -/
structure WSocket : Type where
  readyState : ReadyState
deriving DecidableEq

/-- The abstract connection state of the spec data model: Idle, Connecting,
Open, Closed, plus the degraded state entered on a transport error. -/
inductive ConnState : Type where
  | idle : ConnState
  | connecting : ConnState
  | opened : ConnState
  | degraded : ConnState
  | closed : ConnState
deriving DecidableEq

/-- The state of one hook instance: the five useState cells of
useWebSocket.ts lines 28-32 (socket, data, isConnected, error,
reconnectCount), plus: `pendingDelay`, the reconnect setTimeout pending (with
its delay in ms) if any; `connState`, the spec-level ConnectionState tracked as
a ghost field; `sent`, the log of every frame passed to ws.send; and
`tornDown`, a ghost flag set when the effect cleanup has run. -/
structure HookState (T : Type) : Type where
  socket : Option WSocket := none
  data : Option T := none
  isConnected : Bool := false
  error : Option String := none
  reconnectCount : Nat := 0
  pendingDelay : Option Nat := none
  connState : ConnState := ConnState.idle
  sent : List Json := []
  tornDown : Bool := false

/-- The state at mount: all useState initial values (lines 28-32). -/
def initState (T : Type) : HookState T := {}

/-- The auth control envelope sent at line 54:
JSON.stringify of the object with type "auth" and the configured apiKey. -/
def authEnvelope (key : String) : Json :=
  Json.obj [("type", Json.str "auth"), ("apiKey", Json.str key)]

/-- connect(), successful branch (lines 44-46, 90): `new WebSocket(url,
protocols)` succeeds, handlers are attached and setSocket(ws) stores the new
socket, which starts in readyState CONNECTING.  The ghost ConnectionState
moves to Connecting. -/
def connectOk {T : Type} (s : HookState T) : HookState T :=
  { s with socket := some ⟨ReadyState.CONNECTING⟩,
           connState := ConnState.connecting }

/-- connect(), catch branch (lines 91-93): socket construction threw; the only
state update is setError with the construction-failure message. -/
def connectFail {T : Type} (s : HookState T) (msg : String) : HookState T :=
  { s with error := some ("Failed to create WebSocket connection: " ++ msg) }

/-- ws.onopen (lines 47-61): setIsConnected(true), setError(null),
setReconnectCount(0); then, if apiKey is configured, send the auth envelope
(line 54); then, if subscribeMessage is configured, send it (line 59).  The
socket readyState is OPEN when this event fires; ConnectionState is Open. -/
def onOpen {T : Type} (cfg : WebSocketConfig) (s : HookState T) : HookState T :=
  { s with isConnected := true,
           error := none,
           reconnectCount := 0,
           socket := some ⟨ReadyState.OPEN⟩,
           connState := ConnState.opened,
           sent := s.sent
             ++ (match cfg.apiKey with
                 | some key => [authEnvelope key]
                 | none => [])
             ++ (match cfg.subscribeMessage with
                 | some m => [m]
                 | none => []) }

/-- ws.onmessage (lines 63-70): JSON.parse(event.data); on success
setData(parsed), on a parse exception setError("Failed to parse message
data").  `parse` stands for JSON.parse followed by the (unchecked) cast to T:
`none` models the exception path. -/
def onMessage {T : Type} (parse : String → Option T) (s : HookState T)
    (raw : String) : HookState T :=
  match parse raw with
  | some v => { s with data := some v }
  | none => { s with error := some "Failed to parse message data" }

/-- ws.onerror (lines 72-75): setError("WebSocket error occurred"),
setIsConnected(false).  The transport is closing when an error fires and a
close event always follows; ConnectionState is the degraded state. -/
def onError {T : Type} (s : HookState T) : HookState T :=
  { s with error := some "WebSocket error occurred",
           isConnected := false,
           socket := some ⟨ReadyState.CLOSING⟩,
           connState := ConnState.degraded }

/-- ws.onclose (lines 77-88): setIsConnected(false), setError("WebSocket
connection closed"); then, if reconnect and reconnectCount <
reconnectAttempts, schedule a setTimeout with delay
reconnectInterval * 2 ^ reconnectCount (line 86); otherwise nothing further.
The socket readyState is CLOSED after close; ConnectionState is Closed. -/
def onClose {T : Type} (cfg : WebSocketConfig) (s : HookState T) : HookState T :=
  let s1 := { s with isConnected := false,
                     error := some "WebSocket connection closed",
                     socket := some ⟨ReadyState.CLOSED⟩,
                     connState := ConnState.closed }
  if cfg.reconnect ∧ s.reconnectCount < cfg.reconnectAttempts then
    { s1 with
        pendingDelay := some (cfg.reconnectInterval * 2 ^ s.reconnectCount) }
  else s1

/-- The setTimeout callback (lines 83-85) when the recursive connect()
succeeds: setReconnectCount(prev => prev + 1), then connect() constructs a new
socket. -/
def timerFireOk {T : Type} (s : HookState T) : HookState T :=
  connectOk { s with reconnectCount := s.reconnectCount + 1,
                     pendingDelay := none }

/-- The setTimeout callback (lines 83-85) when the recursive connect() hits
the catch branch: the count is incremented, then only the construction error
is set. -/
def timerFireFail {T : Type} (s : HookState T) (msg : String) : HookState T :=
  connectFail { s with reconnectCount := s.reconnectCount + 1,
                       pendingDelay := none } msg

/-- sendMessage (lines 105-114): if socket?.readyState === WebSocket.OPEN
then socket.send(JSON.stringify(message)), else setError("WebSocket is not
connected").  With optional chaining, a null socket takes the else branch. -/
def sendMessage {T : Type} (s : HookState T) (message : Json) : HookState T :=
  match s.socket with
  | some sock =>
      if sock.readyState = ReadyState.OPEN then
        { s with sent := s.sent ++ [message] }
      else
        { s with error := some "WebSocket is not connected" }
  | none => { s with error := some "WebSocket is not connected" }

/-- The effect cleanup (lines 118-120): `socket?.close()` and nothing else.
close() moves a not-yet-closed socket to CLOSING; it does not clear any
pending reconnect timer, does not touch the other state cells.  The ghost
flag tornDown records that the instance was disposed. -/
def teardown {T : Type} (s : HookState T) : HookState T :=
  { s with tornDown := true,
           socket := s.socket.map (fun sock =>
             if sock.readyState = ReadyState.CLOSED then sock
             else ⟨ReadyState.CLOSING⟩) }

/-- One event of a hook instance.  Guards encode the platform and effect
orderings: the mount effect calls connect() once from the socketless initial
state; open fires only on a connecting socket; message only on an open
socket; error while connecting or open; close once per socket; a reconnect
timer fires only while one is pending (and, per the source bug, also after
teardown, since the cleanup never cancels it); sendMessage and teardown can
occur at any time. -/
inductive Step {T : Type} (parse : String → Option T) (cfg : WebSocketConfig) :
    HookState T → HookState T → Prop where
  | connectOkStep (s : HookState T) (h : s.socket = none) :
      Step parse cfg s (connectOk s)
  | connectFailStep (s : HookState T) (msg : String) (h : s.socket = none) :
      Step parse cfg s (connectFail s msg)
  | openStep (s : HookState T) (h : s.socket = some ⟨ReadyState.CONNECTING⟩) :
      Step parse cfg s (onOpen cfg s)
  | messageStep (s : HookState T) (raw : String)
      (h : s.socket = some ⟨ReadyState.OPEN⟩) :
      Step parse cfg s (onMessage parse s raw)
  | errorStep (s : HookState T)
      (h : s.socket = some ⟨ReadyState.CONNECTING⟩ ∨
           s.socket = some ⟨ReadyState.OPEN⟩) :
      Step parse cfg s (onError s)
  | closeStep (s : HookState T) (sock : WSocket)
      (h : s.socket = some sock) (hne : sock.readyState ≠ ReadyState.CLOSED) :
      Step parse cfg s (onClose cfg s)
  | timerOkStep (s : HookState T) (h : s.pendingDelay ≠ none) :
      Step parse cfg s (timerFireOk s)
  | timerFailStep (s : HookState T) (msg : String) (h : s.pendingDelay ≠ none) :
      Step parse cfg s (timerFireFail s msg)
  | sendStep (s : HookState T) (message : Json) :
      Step parse cfg s (sendMessage s message)
  | teardownStep (s : HookState T) :
      Step parse cfg s (teardown s)

/-- The states a hook instance can reach from mount. -/
inductive Reachable {T : Type} (parse : String → Option T)
    (cfg : WebSocketConfig) : HookState T → Prop where
  | init : Reachable parse cfg (initState T)
  | step (s s' : HookState T) (hr : Reachable parse cfg s)
      (hs : Step parse cfg s s') : Reachable parse cfg s'

/-- The inductive invariant of a hook instance.  `conn_iff` is the derived-flag
property (isConnected ⇔ ConnectionState = Open); `open_iff` ties the abstract
Open state to the stored socket being in readyState OPEN while the instance is
live; `pending_inv` says a pending reconnect timer only exists right after a
close that authorized a retry; `no_socket` and `count_le` are bookkeeping;
`no_reconnect` says that with reconnect disabled no timer is ever pending and
the counter never moves. -/
structure Inv {T : Type} (cfg : WebSocketConfig) (s : HookState T) : Prop where
  conn_iff : s.isConnected = true ↔ s.connState = ConnState.opened
  open_iff : s.tornDown = false →
    (s.connState = ConnState.opened ↔ s.socket = some ⟨ReadyState.OPEN⟩)
  pending_inv : s.pendingDelay ≠ none →
    s.connState = ConnState.closed ∧ s.socket = some ⟨ReadyState.CLOSED⟩ ∧
    s.reconnectCount < cfg.reconnectAttempts ∧ cfg.reconnect = true
  no_socket : s.socket = none → s.isConnected = false
  count_le : s.reconnectCount ≤ cfg.reconnectAttempts
  no_reconnect : cfg.reconnect = false →
    s.pendingDelay = none ∧ s.reconnectCount = 0

theorem inv_init {T : Type} (cfg : WebSocketConfig) : Inv cfg (initState T) := by
  refine ⟨?_, ?_, ?_, ?_, ?_, ?_⟩ <;> simp [initState]

theorem onClose_def {T : Type} (cfg : WebSocketConfig) (s : HookState T) :
    onClose cfg s =
      if cfg.reconnect ∧ s.reconnectCount < cfg.reconnectAttempts then
        { s with isConnected := false,
                 error := some "WebSocket connection closed",
                 socket := some ⟨ReadyState.CLOSED⟩,
                 connState := ConnState.closed,
                 pendingDelay :=
                   some (cfg.reconnectInterval * 2 ^ s.reconnectCount) }
      else
        { s with isConnected := false,
                 error := some "WebSocket connection closed",
                 socket := some ⟨ReadyState.CLOSED⟩,
                 connState := ConnState.closed } := rfl

theorem inv_step {T : Type} {parse : String → Option T} {cfg : WebSocketConfig}
    {s s' : HookState T} (hi : Inv cfg s) (hs : Step parse cfg s s') :
    Inv cfg s' := by
  cases hs with
  | connectOkStep h =>
      have hic : s.isConnected = false := hi.no_socket h
      have hp : s.pendingDelay = none := by
        by_contra hpd
        have h2 := (hi.pending_inv hpd).2.1
        rw [h] at h2
        exact Option.noConfusion h2
      refine ⟨?_, ?_, ?_, ?_, ?_, ?_⟩
      · simp [connectOk, hic]
      · intro _
        simp [connectOk]
      · intro hpd
        simp [connectOk, hp] at hpd
      · intro hn
        simp [connectOk] at hn
      · simpa [connectOk] using hi.count_le
      · intro hf
        exact ⟨by simp [connectOk, hp], by simp [connectOk, (hi.no_reconnect hf).2]⟩
  | connectFailStep msg h =>
      refine ⟨?_, ?_, ?_, ?_, ?_, ?_⟩
      · simpa [connectFail] using hi.conn_iff
      · intro ht
        have ht2 : s.tornDown = false := by simpa [connectFail] using ht
        simpa [connectFail] using hi.open_iff ht2
      · intro hpd
        have hpd2 : s.pendingDelay ≠ none := by simpa [connectFail] using hpd
        have h2 := (hi.pending_inv hpd2).2.1
        rw [h] at h2
        exact Option.noConfusion h2
      · intro _
        simpa [connectFail] using hi.no_socket h
      · simpa [connectFail] using hi.count_le
      · intro hf
        simpa [connectFail] using hi.no_reconnect hf
  | openStep h =>
      have hp : s.pendingDelay = none := by
        by_contra hpd
        have h2 := (hi.pending_inv hpd).2.1
        rw [h] at h2
        simp at h2
      refine ⟨?_, ?_, ?_, ?_, ?_, ?_⟩
      · simp [onOpen]
      · intro _
        simp [onOpen]
      · intro hpd
        simp [onOpen, hp] at hpd
      · intro hn
        simp [onOpen] at hn
      · simp [onOpen]
      · intro hf
        simp [onOpen, hp]
  | messageStep raw h =>
      have hp : s.pendingDelay = none := by
        by_contra hpd
        have h2 := (hi.pending_inv hpd).2.1
        rw [h] at h2
        simp at h2
      cases hparse : parse raw with
      | some v =>
          refine ⟨?_, ?_, ?_, ?_, ?_, ?_⟩
          · simpa [onMessage, hparse] using hi.conn_iff
          · intro ht
            have ht2 : s.tornDown = false := by
              simpa [onMessage, hparse] using ht
            simpa [onMessage, hparse] using hi.open_iff ht2
          · intro hpd
            simp [onMessage, hparse, hp] at hpd
          · intro hn
            simp [onMessage, hparse, h] at hn
          · simpa [onMessage, hparse] using hi.count_le
          · intro hf
            simpa [onMessage, hparse] using hi.no_reconnect hf
      | none =>
          refine ⟨?_, ?_, ?_, ?_, ?_, ?_⟩
          · simpa [onMessage, hparse] using hi.conn_iff
          · intro ht
            have ht2 : s.tornDown = false := by
              simpa [onMessage, hparse] using ht
            simpa [onMessage, hparse] using hi.open_iff ht2
          · intro hpd
            simp [onMessage, hparse, hp] at hpd
          · intro hn
            simp [onMessage, hparse, h] at hn
          · simpa [onMessage, hparse] using hi.count_le
          · intro hf
            simpa [onMessage, hparse] using hi.no_reconnect hf
  | errorStep h =>
      have hp : s.pendingDelay = none := by
        by_contra hpd
        have h2 := (hi.pending_inv hpd).2.1
        rcases h with h | h <;> rw [h] at h2 <;> simp at h2
      refine ⟨?_, ?_, ?_, ?_, ?_, ?_⟩
      · simp [onError]
      · intro _
        simp [onError]
      · intro hpd
        simp [onError, hp] at hpd
      · intro hn
        simp [onError] at hn
      · simpa [onError] using hi.count_le
      · intro hf
        exact ⟨by simp [onError, hp],
               by simpa [onError] using (hi.no_reconnect hf).2⟩
  | closeStep sock h hne =>
      have hp : s.pendingDelay = none := by
        by_contra hpd
        have h2 := (hi.pending_inv hpd).2.1
        rw [h] at h2
        exact hne (by injection h2 with h3; rw [h3])
      rw [onClose_def]
      by_cases hd : cfg.reconnect ∧ s.reconnectCount < cfg.reconnectAttempts
      · rw [if_pos hd]
        refine ⟨?_, ?_, ?_, ?_, ?_, ?_⟩
        · simp
        · intro _
          simp
        · intro _
          exact ⟨rfl, rfl, hd.2, hd.1⟩
        · intro hn
          simp at hn
        · simpa using hi.count_le
        · intro hf
          rw [hf] at hd
          simp at hd
      · rw [if_neg hd]
        refine ⟨?_, ?_, ?_, ?_, ?_, ?_⟩
        · simp
        · intro _
          simp
        · intro hpd
          simp [hp] at hpd
        · intro hn
          simp at hn
        · simpa using hi.count_le
        · intro hf
          exact ⟨by simp [hp], by simpa using (hi.no_reconnect hf).2⟩
  | timerOkStep h =>
      obtain ⟨hcs, hsock, hlt, hre⟩ := hi.pending_inv h
      have hic : s.isConnected = false := by
        by_contra hic
        have h2 := hi.conn_iff.mp (by simpa using Bool.of_not_eq_false hic)
        rw [hcs] at h2
        exact ConnState.noConfusion h2
      refine ⟨?_, ?_, ?_, ?_, ?_, ?_⟩
      · simp [timerFireOk, connectOk, hic]
      · intro _
        simp [timerFireOk, connectOk]
      · intro hpd
        simp [timerFireOk, connectOk] at hpd
      · intro hn
        simp [timerFireOk, connectOk] at hn
      · simpa [timerFireOk, connectOk] using hlt
      · intro hf
        rw [hf] at hre
        exact Bool.noConfusion hre
  | timerFailStep msg h =>
      obtain ⟨hcs, hsock, hlt, hre⟩ := hi.pending_inv h
      refine ⟨?_, ?_, ?_, ?_, ?_, ?_⟩
      · simpa [timerFireFail, connectFail] using hi.conn_iff
      · intro ht
        have ht2 : s.tornDown = false := by
          simpa [timerFireFail, connectFail] using ht
        simpa [timerFireFail, connectFail] using hi.open_iff ht2
      · intro hpd
        simp [timerFireFail, connectFail] at hpd
      · intro hn
        simp [timerFireFail, connectFail, hsock] at hn
      · simpa [timerFireFail, connectFail] using hlt
      · intro hf
        rw [hf] at hre
        exact Bool.noConfusion hre
  | sendStep message =>
      have heq : (sendMessage s message).isConnected = s.isConnected ∧
          (sendMessage s message).connState = s.connState ∧
          (sendMessage s message).socket = s.socket ∧
          (sendMessage s message).pendingDelay = s.pendingDelay ∧
          (sendMessage s message).reconnectCount = s.reconnectCount ∧
          (sendMessage s message).tornDown = s.tornDown := by
        cases hsock : s.socket with
        | none => simp [sendMessage, hsock]
        | some sock =>
            by_cases hrs : sock.readyState = ReadyState.OPEN
            · simp [sendMessage, hsock, hrs]
            · simp [sendMessage, hsock, hrs]
      obtain ⟨h1, h2, h3, h4, h5, h6⟩ := heq
      refine ⟨?_, ?_, ?_, ?_, ?_, ?_⟩
      · rw [h1, h2]
        exact hi.conn_iff
      · intro ht
        rw [h2, h3]
        exact hi.open_iff (h6 ▸ ht)
      · intro hpd
        rw [h2, h3, h5]
        exact hi.pending_inv (h4 ▸ hpd)
      · intro hn
        rw [h1]
        exact hi.no_socket (h3 ▸ hn)
      · rw [h5]
        exact hi.count_le
      · intro hf
        rw [h4, h5]
        exact hi.no_reconnect hf
  | teardownStep =>
      refine ⟨?_, ?_, ?_, ?_, ?_, ?_⟩
      · simpa [teardown] using hi.conn_iff
      · intro ht
        simp [teardown] at ht
      · intro hpd
        have hpd2 : s.pendingDelay ≠ none := by simpa [teardown] using hpd
        obtain ⟨hcs, hsock, hlt, hre⟩ := hi.pending_inv hpd2
        refine ⟨by simpa [teardown] using hcs, ?_,
                by simpa [teardown] using hlt, hre⟩
        simp [teardown, hsock]
      · intro hn
        have hn2 : s.socket = none := by simpa [teardown] using hn
        simpa [teardown] using hi.no_socket hn2
      · simpa [teardown] using hi.count_le
      · intro hf
        simpa [teardown] using hi.no_reconnect hf

theorem reachable_inv {T : Type} {parse : String → Option T}
    {cfg : WebSocketConfig} {s : HookState T}
    (hr : Reachable parse cfg s) : Inv cfg s := by
  induction hr with
  | init => exact inv_init cfg
  | step s s' hr hs ih => exact inv_step ih hs

theorem onClose_reconnectCount {T : Type} (cfg : WebSocketConfig)
    (s : HookState T) : (onClose cfg s).reconnectCount = s.reconnectCount := by
  rw [onClose_def]
  split <;> rfl

/-- The consecutive-failure trace of the spec scenario: the mount effect calls
connect(), and each of the next k attempts closes without a successful open,
its retry timer fires and connect() succeeds in constructing a socket again. -/
def failRun (T : Type) (cfg : WebSocketConfig) : Nat → HookState T
  | 0 => connectOk (initState T)
  | k + 1 => timerFireOk (onClose cfg (failRun T cfg k))

theorem failRun_reconnectCount (T : Type) (cfg : WebSocketConfig) (k : Nat) :
    (failRun T cfg k).reconnectCount = k := by
  induction k with
  | zero => rfl
  | succ k ih => simp [failRun, timerFireOk, connectOk, onClose_reconnectCount, ih]

theorem failRun_pendingDelay (T : Type) (cfg : WebSocketConfig) (k : Nat) :
    (failRun T cfg k).pendingDelay = none := by
  cases k with
  | zero => rfl
  | succ k => simp [failRun, timerFireOk, connectOk]

/-- Per-symbol market entry of Display.tsx lines 10-16.  The numeric fields
stand in for the JS numbers; the claim settled against this model concerns
only which page elements render, never numeric formatting. -/
structure StockData : Type where
  price : Rat
  volume : Rat
  change : Rat

/-- MarketData of Display.tsx lines 8-17: a timestamp and the entries of the
per-symbol object, in Object.entries order. -/
structure MarketData : Type where
  timestamp : String
  data : List (String × StockData)

/-- What the Display component returns: either only the destructive error
alert (lines 24-30), or the page with the connection badge, the optional
waiting text, one card per symbol, and the optional last-updated footer. -/
inductive DisplayView : Type where
  | errorAlert (message : String) : DisplayView
  | page (badgeLive : Bool) (waiting : Bool)
      (cards : List (String × StockData)) (lastUpdated : Option String) :
      DisplayView

/-- The Display component (Display.tsx lines 19-89) as a function of the hook
state it destructures: if error is non-null, return only the alert; otherwise
the badge shows isConnected, the waiting text shows iff no data and connected,
the card grid maps over the data entries, and the footer shows the timestamp
when data is present. -/
def renderDisplay (data : Option MarketData) (isConnected : Bool)
    (error : Option String) : DisplayView :=
  match error with
  | some msg => DisplayView.errorAlert msg
  | none =>
      DisplayView.page isConnected
        (data.isNone && isConnected)
        (match data with
         | some d => d.data
         | none => [])
        (data.map (fun d => d.timestamp))

/-- C1: the claim says teardown cancels any pending reconnect timer so that no
connect() call ever occurs after teardown.  The code violates this: the effect
cleanup (lines 118-120) only calls socket?.close() and never clears the
setTimeout scheduled at line 83.  Concretely: the mount connect() succeeds,
the socket closes (scheduling a retry after the default 5000 ms), the consumer
disposes of the feed — and the timer is still pending on the torn-down
instance, its firing is still a legal step of the transition relation, and
when it fires connect() runs and constructs a fresh socket. -/
theorem c1_teardown_leaves_timer :
    (teardown (onClose {} (connectOk (initState Nat)))).tornDown = true ∧
    (teardown (onClose {} (connectOk (initState Nat)))).pendingDelay =
      some 5000 ∧
    Step (fun _ => (none : Option Nat)) {}
      (teardown (onClose {} (connectOk (initState Nat))))
      (timerFireOk (teardown (onClose {} (connectOk (initState Nat))))) ∧
    (timerFireOk (teardown (onClose {} (connectOk (initState Nat))))).socket =
      some ⟨ReadyState.CONNECTING⟩ := by
  refine ⟨by decide, by decide, ?_, by decide⟩
  refine Step.timerOkStep _ ?_
  decide

/-- C2: after every close, a reconnect is scheduled iff reconnect is enabled
and the counter before incrementing is below reconnectAttempts, at delay
reconnectInterval * 2 ^ counter; with reconnect disabled no timer is ever
pending and the counter never moves in any reachable state; the counter never
exceeds reconnectAttempts; and in the consecutive-failure trace the 0-indexed
attempt k is scheduled after delay reconnectInterval * 2 ^ k, with no attempt
scheduled once k reaches reconnectAttempts. -/
theorem c2_reconnect_policy {T : Type} (parse : String → Option T)
    (cfg : WebSocketConfig) :
    (∀ s : HookState T, s.pendingDelay = none →
      (onClose cfg s).pendingDelay =
        (if cfg.reconnect ∧ s.reconnectCount < cfg.reconnectAttempts then
          some (cfg.reconnectInterval * 2 ^ s.reconnectCount) else none)) ∧
    (cfg.reconnect = false → ∀ s : HookState T, Reachable parse cfg s →
      s.pendingDelay = none ∧ s.reconnectCount = 0) ∧
    (∀ s : HookState T, Reachable parse cfg s →
      s.reconnectCount ≤ cfg.reconnectAttempts) ∧
    (∀ k : Nat, (onClose cfg (failRun T cfg k)).pendingDelay =
      (if cfg.reconnect ∧ k < cfg.reconnectAttempts then
        some (cfg.reconnectInterval * 2 ^ k) else none)) := by
  refine ⟨?_, ?_, ?_, ?_⟩
  · intro s hp
    rw [onClose_def]
    by_cases hd : cfg.reconnect ∧ s.reconnectCount < cfg.reconnectAttempts
    · rw [if_pos hd, if_pos hd]
    · rw [if_neg hd, if_neg hd]
      exact hp
  · intro hf s hr
    exact (reachable_inv hr).no_reconnect hf
  · intro s hr
    exact (reachable_inv hr).count_le
  · intro k
    rw [onClose_def]
    simp only [failRun_reconnectCount]
    by_cases hd : cfg.reconnect ∧ k < cfg.reconnectAttempts
    · rw [if_pos hd, if_pos hd]
    · rw [if_neg hd, if_neg hd]
      exact failRun_pendingDelay T cfg k

/-- C2 witness at the spec scenario: reconnectAttempts = 2,
reconnectInterval = 1000, reconnect enabled — the two retries are scheduled at
delays 1000 ms and 2000 ms, and the third close schedules nothing. -/
theorem c2_reconnect_policy_witness :
    (onClose { reconnectAttempts := 2, reconnectInterval := 1000 }
      (failRun Nat { reconnectAttempts := 2, reconnectInterval := 1000 } 0)).pendingDelay
        = some 1000 ∧
    (onClose { reconnectAttempts := 2, reconnectInterval := 1000 }
      (failRun Nat { reconnectAttempts := 2, reconnectInterval := 1000 } 1)).pendingDelay
        = some 2000 ∧
    (onClose { reconnectAttempts := 2, reconnectInterval := 1000 }
      (failRun Nat { reconnectAttempts := 2, reconnectInterval := 1000 } 2)).pendingDelay
        = none := by
  have h := c2_reconnect_policy (fun _ => (none : Option Nat))
    { reconnectAttempts := 2, reconnectInterval := 1000 }
  refine ⟨?_, ?_, ?_⟩
  · simpa using h.2.2.2 0
  · simpa using h.2.2.2 1
  · simpa using h.2.2.2 2

/-- C3: on every successful open, the state becomes Open with isConnected
true, the error is cleared and the reconnect counter is reset to 0 whatever
its prior value; the frames sent by the open handler are exactly the auth
envelope (when an apiKey is configured) followed by the subscribe payload
verbatim (when one is configured), auth strictly first. -/
theorem c3_on_open {T : Type} (cfg : WebSocketConfig) (s : HookState T) :
    (onOpen cfg s).isConnected = true ∧
    (onOpen cfg s).connState = ConnState.opened ∧
    (onOpen cfg s).error = none ∧
    (onOpen cfg s).reconnectCount = 0 ∧
    (∀ key m, cfg.apiKey = some key → cfg.subscribeMessage = some m →
      (onOpen cfg s).sent = s.sent ++ [authEnvelope key, m]) ∧
    (∀ key, cfg.apiKey = some key → cfg.subscribeMessage = none →
      (onOpen cfg s).sent = s.sent ++ [authEnvelope key]) ∧
    (∀ m, cfg.apiKey = none → cfg.subscribeMessage = some m →
      (onOpen cfg s).sent = s.sent ++ [m]) ∧
    (cfg.apiKey = none → cfg.subscribeMessage = none →
      (onOpen cfg s).sent = s.sent) := by
  refine ⟨rfl, rfl, rfl, rfl, ?_, ?_, ?_, ?_⟩
  · intro key m hk hm
    simp [onOpen, hk, hm]
  · intro key hk hm
    simp [onOpen, hk, hm]
  · intro m hk hm
    simp [onOpen, hk, hm]
  · intro hk hm
    simp [onOpen, hk, hm]

/-- C3 witness at the spec scenario: apiKey "k1" and subscribe payload
(the object with field x = 1) configured, opening after three prior failed
attempts — the counter resets to 0 and exactly the auth envelope then the
payload are sent, in that order. -/
theorem c3_on_open_witness :
    (onOpen { apiKey := some "k1",
              subscribeMessage := some (Json.obj [("x", Json.num 1)]) }
      ({ reconnectCount := 3 } : HookState Nat)).reconnectCount = (0 : Nat) ∧
    (onOpen { apiKey := some "k1",
              subscribeMessage := some (Json.obj [("x", Json.num 1)]) }
      ({ reconnectCount := 3 } : HookState Nat)).sent =
      [authEnvelope "k1", Json.obj [("x", Json.num 1)]] := by
  have h := c3_on_open
    { apiKey := some "k1",
      subscribeMessage := some (Json.obj [("x", Json.num 1)]) }
    ({ reconnectCount := 3 } : HookState Nat)
  exact ⟨h.2.2.2.1, h.2.2.2.2.1 "k1" (Json.obj [("x", Json.num 1)]) rfl rfl⟩

/-- C4: when an inbound frame fails to parse, the only change is that the
error becomes the decode-failure message; data, the connection state and
isConnected are untouched. -/
theorem c4_decode_failure {T : Type} (parse : String → Option T)
    (s : HookState T) (raw : String) (h : parse raw = none) :
    (onMessage parse s raw).error = some "Failed to parse message data" ∧
    (onMessage parse s raw).data = s.data ∧
    (onMessage parse s raw).isConnected = s.isConnected ∧
    (onMessage parse s raw).connState = s.connState := by
  refine ⟨?_, ?_, ?_, ?_⟩ <;> simp [onMessage, h]

/-- C4 witness at the spec scenario: the frame "\x7bnot json" arrives while
connected with a previously decoded value 7 — the error becomes the decode
message, the data stays 7, isConnected stays true. -/
theorem c4_decode_failure_witness :
    (onMessage (fun _ => (none : Option Nat))
      { data := some 7, isConnected := true, connState := ConnState.opened }
      "\x7bnot json").error = some "Failed to parse message data" ∧
    (onMessage (fun _ => (none : Option Nat))
      { data := some 7, isConnected := true, connState := ConnState.opened }
      "\x7bnot json").data = some 7 ∧
    (onMessage (fun _ => (none : Option Nat))
      ({ data := some 7, isConnected := true, connState := ConnState.opened }
        : HookState Nat)
      "\x7bnot json").isConnected = true := by
  have h := c4_decode_failure (fun _ => (none : Option Nat))
    ({ data := some 7, isConnected := true, connState := ConnState.opened }
      : HookState Nat)
    "\x7bnot json" rfl
  exact ⟨h.1, h.2.1, h.2.2.1⟩

/-- C5: for a live (not torn down) reachable state, sendMessage while the
connection is not Open transmits nothing and sets the not-connected error,
and while Open it appends exactly the message to the transmitted frames and
leaves the error untouched. -/
theorem c5_send_gating {T : Type} {parse : String → Option T}
    {cfg : WebSocketConfig} {s : HookState T} (hr : Reachable parse cfg s)
    (ht : s.tornDown = false) (message : Json) :
    (s.connState ≠ ConnState.opened →
      (sendMessage s message).sent = s.sent ∧
      (sendMessage s message).error = some "WebSocket is not connected") ∧
    (s.connState = ConnState.opened →
      (sendMessage s message).sent = s.sent ++ [message] ∧
      (sendMessage s message).error = s.error) := by
  have hi := reachable_inv hr
  constructor
  · intro hno
    have hne : ¬ s.socket = some ⟨ReadyState.OPEN⟩ :=
      fun hs => hno ((hi.open_iff ht).mpr hs)
    cases hs : s.socket with
    | none => simp [sendMessage, hs]
    | some sock =>
        obtain ⟨rs⟩ := sock
        have hrs : rs ≠ ReadyState.OPEN := by
          intro hrseq
          rw [hrseq] at hs
          exact hne hs
        simp [sendMessage, hs, hrs]
  · intro hop
    have hs := (hi.open_iff ht).mp hop
    simp [sendMessage, hs]

/-- C5 witness: in the state reached by mount connect() then a successful
open, sendMessage 1 transmits exactly the frame 1 and keeps the error clear;
the theorem is applied to the concrete two-step reachable trace. -/
theorem c5_send_gating_witness :
    (sendMessage (onOpen {} (connectOk (initState Nat))) (Json.num 1)).sent =
      (onOpen {} (connectOk (initState Nat))).sent ++ [Json.num 1] ∧
    (sendMessage (onOpen {} (connectOk (initState Nat))) (Json.num 1)).error =
      none := by
  have hr1 : Reachable (fun _ => (none : Option Nat)) {}
      (connectOk (initState Nat)) :=
    Reachable.step _ _ Reachable.init (Step.connectOkStep _ rfl)
  have hr2 : Reachable (fun _ => (none : Option Nat)) {}
      (onOpen {} (connectOk (initState Nat))) :=
    Reachable.step _ _ hr1 (Step.openStep _ rfl)
  have h := (c5_send_gating hr2 rfl (Json.num 1)).2 rfl
  exact ⟨h.1, h.2⟩

/-- C6 counterexample: with reconnectAttempts = 2 and base delay 1000 ms, the
exhausted third close (no retry scheduled) carries exactly the same error
text as the first close, a transient drop still under retry — so the
exhaustion outcome is not distinguishable from a retried drop by error text
or category, contrary to the claim. -/
theorem c6_not_distinguishable :
    (onClose { reconnectAttempts := 2, reconnectInterval := 1000 }
      (failRun Nat { reconnectAttempts := 2, reconnectInterval := 1000 } 2)).pendingDelay
        = none ∧
    (onClose { reconnectAttempts := 2, reconnectInterval := 1000 }
      (failRun Nat { reconnectAttempts := 2, reconnectInterval := 1000 } 0)).pendingDelay
        = some 1000 ∧
    (onClose { reconnectAttempts := 2, reconnectInterval := 1000 }
      (failRun Nat { reconnectAttempts := 2, reconnectInterval := 1000 } 2)).error
      =
    (onClose { reconnectAttempts := 2, reconnectInterval := 1000 }
      (failRun Nat { reconnectAttempts := 2, reconnectInterval := 1000 } 0)).error := by
  decide

/-- C6 amended: when the counter has reached reconnectAttempts, a close leaves
the connection terminally Closed with isConnected false, schedules no retry,
and sets the error to the generic close text "WebSocket connection closed" —
the same message as for a drop still under retry, not a distinct exhaustion
message. -/
theorem c6_exhaustion_terminal {T : Type} (cfg : WebSocketConfig)
    (s : HookState T) (h : cfg.reconnectAttempts ≤ s.reconnectCount)
    (hp : s.pendingDelay = none) :
    (onClose cfg s).connState = ConnState.closed ∧
    (onClose cfg s).isConnected = false ∧
    (onClose cfg s).pendingDelay = none ∧
    (onClose cfg s).error = some "WebSocket connection closed" := by
  rw [onClose_def, if_neg (fun hc => (Nat.not_lt.mpr h) hc.2)]
  exact ⟨rfl, rfl, hp, rfl⟩

/-- C6 amended witness: an exhausted close at counter 2 with
reconnectAttempts = 2 is terminal Closed with the generic close error. -/
theorem c6_exhaustion_terminal_witness :
    (onClose { reconnectAttempts := 2, reconnectInterval := 1000 }
      ({ reconnectCount := 2 } : HookState Nat)).connState =
        ConnState.closed ∧
    (onClose { reconnectAttempts := 2, reconnectInterval := 1000 }
      ({ reconnectCount := 2 } : HookState Nat)).pendingDelay = none ∧
    (onClose { reconnectAttempts := 2, reconnectInterval := 1000 }
      ({ reconnectCount := 2 } : HookState Nat)).error =
        some "WebSocket connection closed" := by
  have h := c6_exhaustion_terminal
    { reconnectAttempts := 2, reconnectInterval := 1000 }
    ({ reconnectCount := 2 } : HookState Nat) (by decide) rfl
  exact ⟨h.1, h.2.2.1, h.2.2.2⟩

/-- C7: in every reachable state of an instance, the exposed isConnected flag
equals (ConnectionState = Open); in particular, in the degraded state entered
on a transport error it reads false. -/
theorem c7_isConnected_derived {T : Type} {parse : String → Option T}
    {cfg : WebSocketConfig} {s : HookState T} (hr : Reachable parse cfg s) :
    (s.isConnected = true ↔ s.connState = ConnState.opened) ∧
    (s.connState = ConnState.degraded → s.isConnected = false) := by
  have hi := reachable_inv hr
  refine ⟨hi.conn_iff, ?_⟩
  intro hd
  by_contra hic
  have h2 := hi.conn_iff.mp (Bool.of_not_eq_false hic)
  rw [hd] at h2
  exact ConnState.noConfusion h2

/-- C7 witness: the theorem applied to the concrete reachable trace
mount connect(), open, transport error — the degraded state reads
isConnected = false. -/
theorem c7_isConnected_derived_witness :
    (onError (onOpen {} (connectOk (initState Nat)))).connState =
      ConnState.degraded ∧
    (onError (onOpen {} (connectOk (initState Nat)))).isConnected = false := by
  have hr1 : Reachable (fun _ => (none : Option Nat)) {}
      (connectOk (initState Nat)) :=
    Reachable.step _ _ Reachable.init (Step.connectOkStep _ rfl)
  have hr2 : Reachable (fun _ => (none : Option Nat)) {}
      (onOpen {} (connectOk (initState Nat))) :=
    Reachable.step _ _ hr1 (Step.openStep _ rfl)
  have hr3 : Reachable (fun _ => (none : Option Nat)) {}
      (onError (onOpen {} (connectOk (initState Nat)))) :=
    Reachable.step _ _ hr2 (Step.errorStep _ (Or.inr rfl))
  exact ⟨rfl, (c7_isConnected_derived hr3).2 rfl⟩

/-- C8: when socket construction throws inside connect(), the one exposed
change is the construction-failure error message; data, isConnected, the
stored socket, the reconnect counter, the pending timer, the transmitted
frames and the connection state are all exactly as before. -/
theorem c8_construction_failure_frame {T : Type} (s : HookState T)
    (msg : String) :
    (connectFail s msg).error =
      some ("Failed to create WebSocket connection: " ++ msg) ∧
    (connectFail s msg).data = s.data ∧
    (connectFail s msg).isConnected = s.isConnected ∧
    (connectFail s msg).socket = s.socket ∧
    (connectFail s msg).reconnectCount = s.reconnectCount ∧
    (connectFail s msg).pendingDelay = s.pendingDelay ∧
    (connectFail s msg).sent = s.sent ∧
    (connectFail s msg).connState = s.connState :=
  ⟨rfl, rfl, rfl, rfl, rfl, rfl, rfl, rfl⟩

/-- C9: sendMessage gates on the stored socket, not on the exposed flag: in
every state — reachable or not, and in particular ones where isConnected
reads true — in which no socket is stored or the stored socket is not in
readyState OPEN, nothing is transmitted and the not-connected error is set. -/
theorem c9_send_gates_on_socket {T : Type} (s : HookState T) (message : Json)
    (h : s.socket = none ∨
      ∃ sock, s.socket = some sock ∧ sock.readyState ≠ ReadyState.OPEN) :
    (sendMessage s message).sent = s.sent ∧
    (sendMessage s message).error = some "WebSocket is not connected" := by
  rcases h with h | ⟨sock, hs, hrs⟩
  · constructor <;> simp [sendMessage, h]
  · obtain ⟨rs⟩ := sock
    constructor <;> simp [sendMessage, hs, hrs]

/-- C9 witness: a state whose exposed flag reads true but which stores no
socket — sendMessage transmits nothing and sets the not-connected error. -/
theorem c9_send_gates_on_socket_witness :
    (({ isConnected := true } : HookState Nat).isConnected = true) ∧
    (sendMessage ({ isConnected := true } : HookState Nat) (Json.num 0)).sent
      = [] ∧
    (sendMessage ({ isConnected := true } : HookState Nat) (Json.num 0)).error
      = some "WebSocket is not connected" := by
  have h := c9_send_gates_on_socket ({ isConnected := true } : HookState Nat)
    (Json.num 0) (Or.inl rfl)
  exact ⟨rfl, h.1, h.2⟩

/-- C10: whenever the exposed error is non-null the Display component returns
only the error alert — by the shape of DisplayView.errorAlert, no connection
badge, no card grid and no last-updated footer are rendered, whatever the
values of data and isConnected. -/
theorem c10_error_short_circuits (data : Option MarketData)
    (isConnected : Bool) (msg : String) :
    renderDisplay data isConnected (some msg) = DisplayView.errorAlert msg :=
  rfl

end TradingTrends
